import Mathlib

/-!
Verification of the gallery/category index assembly pipeline of the
holoviz-topics/examples documentation build.

The definitions below are a shallow embedding of `_extensions/gallery.py`
(card-grid and navigation-tree generation, category indexing, label and
thumbnail validation) and of the redirect construction in `doc/conf.py`
(`to_gallery_redirects`, `top_level_redirects`, `project_direct_links`,
`rediraffe_redirects`), together with the helper `find_notebooks` from
`dodo.py`.  The filesystem is modelled as an explicit record of query
functions; Python exceptions are modelled by an error type threaded through
`Except`; file writes are modelled as an accumulated list of
(path, contents) pairs so that "aborts before anything is written" is a
provable statement rather than a vacuous one.
-/

/-! ## Python string comparison and `sorted`

Python compares strings lexicographically by code points; `sorted` returns
the ascending, stable reordering.  We model the comparison by the
lexicographic order on the underlying character lists and `sorted` by
insertion sort (extensionally equal to any correct stable sort, and on a
total order the sorted permutation is unique).
-/

/-- Python `a <= b` on strings: lexicographic on code points. -/
def pyLe (a b : String) : Prop := a.data ≤ b.data

instance : DecidableRel pyLe := fun a b => inferInstanceAs (Decidable (a.data ≤ b.data))

instance : IsTotal String pyLe := ⟨fun a b => le_total a.data b.data⟩

instance : IsTrans String pyLe := ⟨fun _ _ _ h₁ h₂ => le_trans h₁ h₂⟩

/-- Model of Python `sorted` on lists of strings (default ascending order). -/
def pySorted (l : List String) : List String := List.insertionSort pyLe l

/-- Concatenation of a list of strings (Python `''.join` / repeated `+=`). -/
def strConcat (l : List String) : String := l.foldr (fun a b => a ++ b) ""

/-- Python `c * n`-style repetition of a single character. -/
def strRepeat (n : Nat) (c : Char) : String := String.mk (List.replicate n c)

/-- Split a character list on a separator character (`str.split(sep)`). -/
def splitOnChar (sep : Char) : List Char → List (List Char)
  | [] => [[]]
  | c :: rest =>
    match splitOnChar sep rest with
    | [] => if c = sep then [[], []] else [[c]]
    | h :: t => if c = sep then [] :: h :: t else (c :: h) :: t

/-- Python `sep.join(parts)`. -/
def pyJoin (sep : String) : List String → String
  | [] => ""
  | [x] => x
  | x :: rest => x ++ sep ++ pyJoin sep rest

/-- Python `str.strip()`: drop leading and trailing whitespace. -/
def pyStrip (s : String) : String :=
  String.mk (((s.data.dropWhile Char.isWhitespace).reverse.dropWhile Char.isWhitespace).reverse)

/-- Python `str.lower()` (ASCII). -/
def pyLower (s : String) : String := String.mk (s.data.map Char.toLower)

/-- Python `str.replace(a, b)` for single-character arguments. -/
def replaceChar (a b : Char) (s : String) : String :=
  String.mk (s.data.map (fun c => if c = a then b else c))

/-- Model of Python `str.splitlines` (for `\n`-separated text): like
splitting on newlines but without a trailing empty chunk. -/
def pySplitlines (s : String) : List String :=
  let parts := (splitOnChar '\n' s.data).map String.mk
  if parts.getLast? = some "" then parts.dropLast else parts

/-! ## Path utilities (`os.path.join`, `os.path.basename`, `pathlib.Path.stem`) -/

/-- `os.path.join` for relative POSIX path components. -/
def joinPath (a b : String) : String := a ++ "/" ++ b

/-- Characters after the last slash of a character list; `acc` holds the
characters of the current final component seen so far. -/
def afterLastSlash (acc : List Char) : List Char → List Char
  | [] => acc
  | c :: rest => if c = '/' then afterLastSlash [] rest else afterLastSlash (acc ++ [c]) rest

/-- `os.path.basename`: everything after the last `/`. -/
def basename (p : String) : String := String.mk (afterLastSlash [] p.data)

/-- Remove the trailing `.suffix` (from the last dot onwards) of a
character list, if a dot occurs at all. -/
def stemAux : List Char → List Char
  | [] => []
  | c :: rest => if c = '.' ∧ '.' ∉ rest then [] else c :: stemAux rest

/-- `pathlib.Path(p).stem`: the final path component without its extension. -/
def stem (p : String) : String := String.mk (stemAux (afterLastSlash [] p.data))

/-! ## Filesystem snapshot and Python-level error values -/

/-- A read-only filesystem snapshot, as queried by the pipeline.
`filesIn d` models `glob.glob(os.path.join(d, '*.ipynb'))` (full paths, in
scandir order); `isFile` models `os.path.isfile`; `pathExists` models
`os.path.exists`; `readFile` gives the contents of a text file. -/
structure FS where
  filesIn : String → List String
  isFile : String → Bool
  pathExists : String → Bool
  readFile : String → String

/-- The Python exceptions that the modelled code can raise.  `indexError`
is deliberately message-free: Python's `files[0]` on an empty list raises
`IndexError: list index out of range`, which carries no project name.
`typeError` models a call-signature mismatch such as passing a keyword
argument the callee does not accept. -/
inductive PyError where
  | indexError : PyError
  | fileNotFoundError : String → PyError
  | valueError : String → PyError
  | runtimeError : String → PyError
  | assertionError : String → PyError
  | typeError : String → PyError
deriving DecidableEq, Repr

/-- Python `repr` of a string as interpolated by `f'{x!r}'` (quotes around
the text). -/
def pyRepr (s : String) : String := "\x27" ++ s ++ "\x27"

/-- Python `repr` of a list of strings, as interpolated by `f'{xs}'`. -/
def pyReprList (l : List String) : String := "[" ++ pyJoin ", " (l.map pyRepr) ++ "]"

/-! ## Catalog records and gallery configuration (`gallery_conf`) -/

/-- One entry of `gallery_conf['sections']`: the per-project record built
by `gallery_spec` in `doc/conf.py` (only the fields the gallery extension
reads, plus the fields present in the built-in default section). -/
structure Sec where
  path : String
  title : String
  description : String
  labels : List String
  skip : List String := []
  deployment_urls : List String := []
deriving DecidableEq, Repr

/-- The gallery configuration dictionary (typed view). -/
structure GalleryConf where
  default_extensions : List String
  examples_dir : String
  labels_dir : String
  github_project : Option String
  intro : String
  title : String
  path : String
  sections : List Sec
deriving DecidableEq, Repr

/-- `DEFAULT_GALLERY_CONF` from `_extensions/gallery.py`. -/
def DEFAULT_GALLERY_CONF : GalleryConf :=
  { default_extensions := ["*.ipynb"]
    examples_dir := joinPath ".." "examples"
    labels_dir := "labels"
    github_project := none
    intro := "Sample intro"
    title := "A sample gallery title"
    path := "path_to_gallery"
    sections := [{ path := "path_to_section"
                   title := "Sample Title"
                   description := "A sample section description"
                   labels := []
                   skip := []
                   deployment_urls := [] }] }

/-- The ambient Sphinx application state read by the extension:
`app.builder.srcdir`, the filesystem, the configured `gallery_conf`,
whether `'_static'` is in `html_static_path`, the `tags.yml` mapping
(project path to its declared category list), the per-project
`examples_config['skip']` lists read by `find_notebooks`, and `setIter`,
which models the iteration order of a Python `set` built by successive
`update` calls from the given element sequence (hash-order dependent). -/
structure App where
  srcdir : String
  fs : FS
  conf : GalleryConf
  hasStaticPath : Bool
  tagMapping : String → List String
  skips : String → List String
  setIter : List String → List String

/-! ## Static category vocabulary -/

/-- `CATNAME_TO_CAT_MAP`: the curated, ordered category vocabulary. -/
def CATNAME_TO_CAT_MAP : List (String × List String) :=
  [("⭐ Featured", ["Featured"]),
   ("Geospatial", ["Geospatial"]),
   ("Life Sciences", ["Life Sciences"]),
   ("Finance and Economics", ["Finance", "Economics"]),
   ("Mathematics", ["Mathematics"]),
   ("Cybersecurity", ["Cybersecurity"]),
   ("Neuroscience", ["Neuroscience"]),
   ("Sports", ["Sports"])]

/-- `CAT_TO_CATNAME_MAP` as a lookup: declared category to display name. -/
def CAT_TO_CATNAME_MAP (category : String) : Option String :=
  (CATNAME_TO_CAT_MAP.find? (fun p => p.2.contains category)).map (fun p => p.1)

/-- Membership in `ALL_VALID_CATEGORIES`. -/
def ALL_VALID_CATEGORIES (category : String) : Bool :=
  (CAT_TO_CATNAME_MAP category).isSome

/-! ## `_extensions/gallery.py`: helpers -/

/-- `sort_index_first`'s search loop: the index of the *last* element whose
basename is `index.ipynb` (the Python loop overwrites `index_idx`). -/
def find_index_idx : List String → Option Nat
  | [] => none
  | f :: rest =>
    match find_index_idx rest with
    | some j => some (j + 1)
    | none => if basename f = "index.ipynb" then some 0 else none

/-- `sort_index_first(files)`: pop the `index.ipynb` entry to the front and
sort the remaining paths ascending; `none` models the `assert` firing when
no `index.ipynb` is present. -/
def sort_index_first (files : List String) : Option (List String) :=
  match find_index_idx files with
  | none => none
  | some i => some (files.getD i "" :: pySorted (files.eraseIdx i))

/-- `clean_description`: flatten embedded newlines to single-line text. -/
def clean_description (description : String) : String :=
  pyJoin " " (pySplitlines description)

/-- `clean_category_name`: drop non-alphanumeric/non-space characters,
strip, lowercase, and replace spaces by underscores. -/
def clean_category_name (category_name : String) : String :=
  replaceChar ' ' '_'
    (pyLower (pyStrip (String.mk (category_name.data.filter (fun c => c.isAlphanum || c.isWhitespace)))))

/-- `get_labels_path`: `<srcdir>/_static/<labels_dir>`, or
`FileNotFoundError` when `'_static'` is not in `html_static_path`. -/
def get_labels_path (app : App) : Except PyError String :=
  if app.hasStaticPath then
    .ok (joinPath (joinPath app.srcdir "_static") app.conf.labels_dir)
  else
    .error (.fileNotFoundError
      "Gallery expects `html_static_path` to contain a \x22doc/_static/\x22 folder, in which the labels will be looked up.")

/-- Loop of `generate_labels_rst`: check each label icon exists and append
an `.. image::` line; `FileNotFoundError` on a missing icon. -/
def generate_labels_rst_loop (fs : FS) (labels_path : String) :
    List String → String → Except PyError String
  | [], labels_str => .ok labels_str
  | label :: rest, labels_str =>
    let label_svg := joinPath labels_path (label ++ ".svg")
    if fs.pathExists label_svg then
      generate_labels_rst_loop fs labels_path rest
        (labels_str ++ "        " ++ ".. image:: " ++ ("/" ++ label_svg) ++ "\n")
    else
      .error (.fileNotFoundError
        ("Label " ++ pyRepr label ++ " must have an SVG file in " ++ labels_path))

/-- `generate_labels_rst(labels_path, labels)`. -/
def generate_labels_rst (fs : FS) (labels_path : String) (labels : List String) :
    Except PyError String :=
  generate_labels_rst_loop fs labels_path labels ""

/-- `INLINE_THUMBNAIL_TEMPLATE.format(...)` (the template's braces filled
in by concatenation). -/
def inline_thumbnail_card (title section_path description thumbnail labels : String) : String :=
  "\n    .. grid-item-card:: :doc:`" ++ title ++ " <" ++ section_path ++ ">`\n        :shadow: md\n\n        .. image:: /" ++ thumbnail ++ "\n            :alt: " ++ title ++ "\n            :target: " ++ section_path ++ ".html\n            :class: extension-gallery-img\n        ^^^\n        " ++ description ++ "\n        +++\n" ++ labels ++ "\n\n"

/-- The `.. grid::` header prepended by `generate_card_grid`. -/
def grid_header : String := "\n.. grid:: 2 2 4 4\n    :gutter: 3\n    :margin: 0\n"

/-! ## `generate_card_grid` -/

/-- Resolution of a project's main artifact and thumbnail path from its
glob result: more than one file requires an `index.ipynb` (otherwise the
project is skipped, modelled by `none`); a single file is its own main
artifact; an empty glob hits `files[0]` and raises `IndexError`.  In the
multi-file branch the source also reassigns `files = sort_index_first(files)`
(whose `assert` cannot fire there); the reordered list is returned as the
third component, mirroring that reassignment. -/
def resolve_main (gallery_path project_path : String) (files : List String) :
    Except PyError (Option (String × String × List String)) :=
  if files.length > 1 then
    if (files.map basename).contains "index.ipynb" then
      match sort_index_first files with
      | none => .error (.assertionError ("index.ipynb not found in " ++ pyReprList files))
      | some files2 =>
        .ok (some ("index",
          joinPath (joinPath (joinPath gallery_path project_path) "thumbnails") "index.png",
          files2))
    else
      .ok none
  else
    match files with
    | [] => .error .indexError
    | f :: _ =>
      .ok (some (stem f,
        joinPath (joinPath (joinPath gallery_path project_path) "thumbnails") (stem f ++ ".png"),
        files))

/-- The per-project glob of `generate_card_grid`:
`glob.glob(os.path.join(srcdir, gallery_conf['path'], project_path, '*.ipynb'))`. -/
def project_files (app : App) (s : Sec) : List String :=
  app.fs.filesIn (joinPath (joinPath app.srcdir app.conf.path) s.path)

/-- The loop body of `generate_card_grid`: resolve each project, skip it on
a missing `index.ipynb` (warning) or missing thumbnail (warning), validate
its labels, and append the card text and the toctree entry. -/
def card_grid_loop (app : App) (labels_path : String) :
    List Sec → String → List String → Except PyError (String × List String)
  | [], rst, toctree_entries => .ok (rst, toctree_entries)
  | s :: rest, rst, toctree_entries =>
    let title := s.title
    let description := clean_description s.description
    let files := project_files app s
    match resolve_main app.conf.path s.path files with
    | .error e => .error e
    | .ok none => card_grid_loop app labels_path rest rst toctree_entries
    | .ok (some (main_file, thumb_path, _files2)) =>
      if app.fs.isFile (joinPath app.srcdir thumb_path) then
        match generate_labels_rst app.fs labels_path s.labels with
        | .error e => .error e
        | .ok labels_str =>
          let main_file_path := joinPath s.path main_file
          card_grid_loop app labels_path rest
            (rst ++ inline_thumbnail_card title main_file_path description thumb_path labels_str)
            (toctree_entries ++ [title ++ " <" ++ main_file_path ++ ">"])
      else
        card_grid_loop app labels_path rest rst toctree_entries

/-- `generate_card_grid(app, rst, projects, labels_path)`. -/
def generate_card_grid (app : App) (rst : String) (projects : List Sec) (labels_path : String) :
    Except PyError (String × List String) :=
  card_grid_loop app labels_path projects (rst ++ grid_header) []

/-- `generate_toctree(entries, hidden=True)`. -/
def generate_toctree (entries : List String) (hidden : Bool := true) : String :=
  let toctree := if hidden then ".. toctree::\n   :hidden:\n\n" else ".. toctree::\n\n"
  entries.foldl (fun acc entry => acc ++ "   " ++ entry ++ "\n") toctree

/-! ## Category indexing and page generation (`generate_galleries`) -/

/-- Append a section to a category's bucket in the insertion-ordered
mapping `category_projects` (Python dict with list values). -/
def add_to_category (m : List (String × List Sec)) (catname : String) (s : Sec) :
    List (String × List Sec) :=
  if m.any (fun p => p.1 = catname) then
    m.map (fun p => if p.1 = catname then (p.1, p.2 ++ [s]) else p)
  else
    m ++ [(catname, [s])]

/-- Inner loop of the `generate_galleries` validation pass: file one
section under each of its declared categories, raising `ValueError` on a
category outside the vocabulary. -/
def add_section_categories (s : Sec) :
    List String → List (String × List Sec) → Except PyError (List (String × List Sec))
  | [], m => .ok m
  | category :: rest, m =>
    match CAT_TO_CATNAME_MAP category with
    | none =>
      .error (.valueError
        ("Invalid category " ++ pyRepr category ++ " found in project " ++ pyRepr s.path ++ "."))
    | some catname => add_section_categories s rest (add_to_category m catname s)

/-- Outer loop of the validation pass over `gallery_conf['sections']`. -/
def build_category_projects (tagMapping : String → List String) :
    List Sec → List (String × List Sec) → Except PyError (List (String × List Sec))
  | [], m => .ok m
  | s :: rest, m =>
    match add_section_categories s (tagMapping s.path) m with
    | .error e => .error e
    | .ok m2 => build_category_projects tagMapping rest m2

/-- Python `d.get(k)` on an association list built in insertion order. -/
def dictGet {α : Type} (m : List (String × α)) (k : String) : Option α :=
  (m.find? (fun p => p.1 = k)).map (fun p => p.2)

/-- Python `d.get(k, default)`. -/
def dictGetD {α : Type} (m : List (String × α)) (k : String) (d : α) : α :=
  (dictGet m k).getD d

/-- `generate_category_page(app, category, projects, labels_path)`: build
the category page text and return the (path, contents) pair that the
source writes to disk. -/
def generate_category_page (app : App) (category : String) (projects : List Sec)
    (labels_path : String) : Except PyError (String × String) :=
  let rst := category ++ "\n" ++ strRepeat (category.length * 3) '_' ++ "\n"
  let category_file_path :=
    joinPath (joinPath app.srcdir "category_descriptions") (clean_category_name category ++ ".rst")
  let rst :=
    if app.fs.pathExists category_file_path then
      rst ++ "\n" ++ app.fs.readFile category_file_path ++ "\n\n"
    else
      rst ++ "\n" ++ category ++ " Projects\n"
  let target :=
    joinPath (joinPath app.srcdir app.conf.path) (clean_category_name category ++ ".rst")
  if projects.isEmpty then
    .ok (target, rst)
  else
    match generate_card_grid app rst projects labels_path with
    | .error e => .error e
    | .ok (rst2, toctree_entries) => .ok (target, rst2 ++ generate_toctree toctree_entries)

/-- `generate_label_buttons(labels)`: one filter button per label, in the
iteration order of the `all_labels` set. -/
def generate_label_buttons (labels : List String) : String :=
  let buttons_html := "\n\n<div id=\x22label-filters-container\x22>\n"
  let buttons_html := buttons_html ++ "  <div class=\x22filter-label\x22>Filter by label:</div>\n"
  let buttons_html := buttons_html ++ "  <div id=\x22label-filters\x22 class=\x22filter-box\x22>\n"
  let buttons_html := labels.foldl
    (fun acc label =>
      acc ++ "    <button class=\x22filter-btn\x22 data-label=\x22" ++ label ++ "\x22>" ++ label ++ "</button>\n")
    buttons_html
  buttons_html ++ "  </div>\n</div>\n"

/-- Per-category loop of `generate_gallery_index`: a linked heading for
every category, a card grid for the non-empty ones (the per-project
toctree entries returned by `generate_card_grid` are discarded), and one
toctree entry per non-empty category. -/
def gallery_index_loop (app : App) (labels_path : String)
    (category_projects : List (String × List Sec)) :
    List String → String → List String → Except PyError (String × List String)
  | [], rst, toctree_entries => .ok (rst, toctree_entries)
  | category :: rest, rst, toctree_entries =>
    let category_link := clean_category_name category
    let rst := rst ++ "\n`" ++ category ++ " <" ++ category_link ++ ".html>`_\n"
      ++ strRepeat category.length '-' ++ "\n\n"
    let projects := dictGetD category_projects category []
    if projects.isEmpty then
      gallery_index_loop app labels_path category_projects rest rst toctree_entries
    else
      match generate_card_grid app rst projects labels_path with
      | .error e => .error e
      | .ok (rst2, _) =>
        gallery_index_loop app labels_path category_projects rest (rst2 ++ "\n\n")
          (toctree_entries ++ [category ++ " <" ++ category_link ++ ">"])

/-- The sequence in which `generate_gallery_index` feeds labels into the
`all_labels` set (dict values in insertion order, sections in bucket
order, each section's labels in list order). -/
def all_labels_sequence (category_projects : List (String × List Sec)) : List String :=
  (category_projects.map (fun p => (p.2.map Sec.labels).flatten)).flatten

/-- `generate_gallery_index(app, category_projects, labels_path)`: build
the root gallery document and return the (path, contents) pair written by
the source. -/
def generate_gallery_index (app : App) (category_projects : List (String × List Sec))
    (labels_path : String) : Except PyError (String × String) :=
  let title := app.conf.title
  let rst := title ++ "\n" ++ strRepeat (title.length * 3) '_' ++ "\n"
  let rst := rst ++ "\n" ++ app.fs.readFile (joinPath app.srcdir "intro.rst") ++ "\n\n"
  let all_labels := app.setIter (all_labels_sequence category_projects)
  let label_buttons_html := generate_label_buttons all_labels
  let rst := rst ++ "\n.. raw:: html\n\n"
  let rst := (pySplitlines label_buttons_html).foldl (fun acc line => acc ++ "   " ++ line ++ "\n") rst
  let rst := rst ++ "\n"
  match gallery_index_loop app labels_path category_projects
      (CATNAME_TO_CAT_MAP.map (fun p => p.1)) rst [] with
  | .error e => .error e
  | .ok (rst2, toctree_entries) =>
    .ok (joinPath (joinPath app.srcdir app.conf.path) "index.rst",
      rst2 ++ generate_toctree toctree_entries)

/-- Loop of `generate_galleries` over the static category vocabulary,
then the root index page.  The first component accumulates the
(path, contents) writes actually performed; the second reports the
exception that aborted the run, if any (writes performed before the
exception are kept, as on a real filesystem). -/
def galleries_pages_loop (app : App) (category_projects : List (String × List Sec))
    (labels_path : String) :
    List String → List (String × String) → List (String × String) × Option PyError
  | [], writes =>
    match generate_gallery_index app category_projects labels_path with
    | .error e => (writes, some e)
    | .ok w => (writes ++ [w], none)
  | category :: rest, writes =>
    match generate_category_page app category (dictGetD category_projects category [])
        labels_path with
    | .error e => (writes, some e)
    | .ok w => galleries_pages_loop app category_projects labels_path rest (writes ++ [w])

/-- `generate_galleries(app)`: validate every section's categories, then
write one page per category of the static vocabulary plus the root index. -/
def generate_galleries (app : App) : List (String × String) × Option PyError :=
  match get_labels_path app with
  | .error e => ([], some e)
  | .ok labels_path =>
    match build_category_projects app.tagMapping app.conf.sections [] with
    | .error e => ([], some e)
    | .ok category_projects =>
      galleries_pages_loop app category_projects labels_path
        (CATNAME_TO_CAT_MAP.map (fun p => p.1)) []

/-- `generate_gallery_rst(app)`: the `builder-inited` entry point; when the
configured `gallery_conf` equals the built-in default the function returns
at once and generates nothing. -/
def generate_gallery_rst (app : App) : List (String × String) × Option PyError :=
  if DEFAULT_GALLERY_CONF = app.conf then ([], none)
  else generate_galleries app

/-! ## `doc/conf.py`: redirect construction -/

/-- Python `d[k] = v` on an insertion-ordered dict: overwrite in place if
the key exists, else append. -/
def dictInsert (d : List (String × String)) (k v : String) : List (String × String) :=
  if d.any (fun p => p.1 = k) then
    d.map (fun p => if p.1 = k then (p.1, v) else p)
  else
    d ++ [(k, v)]

/-- Python `{**a, **b}` (and `dict.update`): insert `b`'s pairs into `a`
left to right, later entries silently overriding earlier ones. -/
def pyDictUpdate (a b : List (String × String)) : List (String × String) :=
  b.foldl (fun d p => dictInsert d p.1 p.2) a

/-- `find_notebooks(proj_dir_name)` from `dodo.py`: the project's `*.ipynb`
glob minus the filenames listed in its `examples_config['skip']`. -/
def find_notebooks (fs : FS) (skips : String → List String) (proj_dir_name : String) :
    List String :=
  (fs.filesIn proj_dir_name).filter (fun nb => ¬ (skips proj_dir_name).contains (basename nb))

/-- Loop of `to_gallery_redirects` in `doc/conf.py`.  Its body begins with
`notebooks = find_notebooks(project, root=\x27..\x27)`, but the
`find_notebooks` defined in `dodo.py` has signature
`(proj_dir_name, exclude_config=[\x27skip\x27])` and accepts no `root`
keyword, so in the frozen source this call raises `TypeError` for every
project, before any notebook counting.  The remainder of the loop body
(the `index`/single-stem selection and the
`RuntimeError(f\x27Too many notebooks found: \x7bnbstems\x7d\x27)` branch)
is unreachable. -/
def to_gallery_redirects_loop (_fs : FS) (_skips : String → List String) :
    List String → List (String × String) → Except PyError (List (String × String))
  | [], redirects => .ok redirects
  | _project :: _rest, _redirects =>
    .error (.typeError "find_notebooks() got an unexpected keyword argument \x27root\x27")

/-- `to_gallery_redirects()`. -/
def to_gallery_redirects (fs : FS) (skips : String → List String) (projects : List String) :
    Except PyError (List (String × String)) :=
  to_gallery_redirects_loop fs skips projects []

/-- `top_level_redirects` from `doc/conf.py`. -/
def top_level_redirects : List (String × String) :=
  [("user_guide", "getting_started"),
   ("make_project", "contributing"),
   ("maintenance", "index")]

/-- `project_direct_links` from `doc/conf.py` (flat-layout paths moved
under `/gallery`). -/
def project_direct_links : List (String × String) :=
  [("attractors/attractors", "gallery/attractors/attractors"),
   ("attractors/attractors_panel", "gallery/attractors/attractors_panel"),
   ("attractors/clifford_panel", "gallery/attractors/clifford_panel"),
   ("bay_trimesh/bay_trimesh", "gallery/bay_trimesh/bay_trimesh"),
   ("boids/boids", "gallery/boids/boids"),
   ("carbon_flux/carbon_flux", "gallery/carbon_flux/carbon_flux"),
   ("census/census", "gallery/census/census"),
   ("datashader_dashboard/dashboard", "gallery/datashader_dashboard/datashader_dashboard"),
   ("euler/euler", "gallery/euler/euler"),
   ("exoplanets/exoplanets", "gallery/exoplanets/exoplanets"),
   ("gapminders/gapminders", "gallery/gapminders/gapminders"),
   ("gerrymandering/gerrymandering", "gallery/gerrymandering/gerrymandering"),
   ("glaciers/glaciers", "gallery/glaciers/glaciers"),
   ("gull_tracking/gull_tracking", "gallery/gull_tracking/gull_tracking"),
   ("heat_and_trees/Heat_and_Trees", "gallery/heat_and_trees/heat_and_trees"),
   ("hipster_dynamics/hipster_dynamics", "gallery/hipster_dynamics/hipster_dynamics"),
   ("iex_trading/IEX_stocks", "gallery/iex_trading/IEX_stocks"),
   ("iex_trading/IEX_trading", "gallery/iex_trading/IEX_trading"),
   ("landsat/landsat", "gallery/landsat/landsat"),
   ("landsat_clustering/landsat_clustering", "gallery/landsat_clustering/landsat_clustering"),
   ("lsystems/lsystems", "gallery/lsystems/lsystems"),
   ("ml_annotators/ml_annotators", "gallery/ml_annotators/ml_annotators"),
   ("network_packets/network_packets", "gallery/network_packets/network_packets"),
   ("nyc_buildings/nyc_buildings", "gallery/nyc_buildings/nyc_buildings"),
   ("nyc_taxi/dashboard", "gallery/nyc_taxi/dashboard"),
   ("nyc_taxi/nyc_taxi-nongeo", "gallery/nyc_taxi/nyc_taxi-nongeo"),
   ("nyc_taxi/nyc_taxi", "gallery/nyc_taxi/nyc_taxi"),
   ("opensky/opensky", "gallery/opensky/opensky"),
   ("osm/osm-1billion", "gallery/osm/osm-1billion"),
   ("osm/osm-3billion", "gallery/osm/osm-3billion"),
   ("penguin_crossfilter/penguin_crossfilter", "gallery/penguin_crossfilter/penguin_crossfilter"),
   ("portfolio_optimizer/portfolio", "gallery/portfolio_optimizer/portfolio_optimizer"),
   ("seattle_lidar/Seattle_Lidar", "gallery/seattle_lidar/seattle_lidar"),
   ("ship_traffic/ship_traffic", "gallery/ship_traffic/ship_traffic"),
   ("square_limit/square_limit", "gallery/square_limit/square_limit"),
   ("sri_model/sri_model", "gallery/sri_model/sri_model"),
   ("uk_researchers/uk_researchers", "gallery/uk_researchers/uk_researchers")]

/-- `rediraffe_redirects = {**top_level_redirects, **project_direct_links,
**to_gallery_redirects()}`. -/
def rediraffe_redirects (fs : FS) (skips : String → List String) (projects : List String) :
    Except PyError (List (String × String)) :=
  match to_gallery_redirects fs skips projects with
  | .error e => .error e
  | .ok gallery_redirects =>
    .ok (pyDictUpdate (pyDictUpdate top_level_redirects project_direct_links) gallery_redirects)

/-! ## Derived characterizations (used to state the round-trip invariant)

The following definitions do not embed new source code; they name, in
terms of the embedded functions, which projects end up with a card and
what their card text and toctree entry are, so that "card membership" and
"navigation-tree membership" can be compared as lists.
-/

/-- The main-artifact/thumbnail resolution outcome for one project, as
`generate_card_grid` computes it (`none` when the project is skipped or
the resolution raises). -/
def resolved (app : App) (s : Sec) : Option (String × String) :=
  match resolve_main app.conf.path s.path (project_files app s) with
  | .ok (some (main_file, thumb_path, _)) => some (main_file, thumb_path)
  | _ => none

/-- Whether `generate_card_grid` emits a card (and toctree entry) for the
project: resolution succeeded and the thumbnail file exists. -/
def survives (app : App) (s : Sec) : Bool :=
  match resolved app s with
  | some (_, thumb_path) => app.fs.isFile (joinPath app.srcdir thumb_path)
  | none => false

/-- The toctree entry `generate_card_grid` appends for a surviving project. -/
def entryOf (app : App) (s : Sec) : String :=
  match resolved app s with
  | some (main_file, _) => s.title ++ " <" ++ joinPath s.path main_file ++ ">"
  | none => ""

/-- The card text `generate_card_grid` appends for a surviving project. -/
def cardOf (app : App) (labels_path : String) (s : Sec) : String :=
  match resolved app s with
  | some (main_file, thumb_path) =>
    inline_thumbnail_card s.title (joinPath s.path main_file) (clean_description s.description)
      thumb_path ((generate_labels_rst app.fs labels_path s.labels).toOption.getD "")
  | none => ""

/-! ## Structure of `generate_card_grid`'s two outputs -/

/-- Every successful run of the card-grid loop appends, for exactly the
surviving projects and in catalog order, one card to the text and one
entry to the toctree list. -/
theorem card_grid_loop_ok (app : App) (lp : String) :
    ∀ (l : List Sec) (rst : String) (entries : List String) (out : String) (es : List String),
      card_grid_loop app lp l rst entries = .ok (out, es) →
      es = entries ++ (l.filter (fun s => survives app s)).map (entryOf app) ∧
      out = rst ++ strConcat ((l.filter (fun s => survives app s)).map (cardOf app lp)) := by
  intro l
  induction l with
  | nil =>
    intro rst entries out es h
    simp only [card_grid_loop, Except.ok.injEq, Prod.mk.injEq] at h
    simp [← h.1, ← h.2, strConcat]
  | cons s rest ih =>
    intro rst entries out es h
    simp only [card_grid_loop] at h
    cases hr : resolve_main app.conf.path s.path (project_files app s) with
    | error e => rw [hr] at h; exact absurd h (by simp)
    | ok o =>
      rw [hr] at h
      cases o with
      | none =>
        have hs : survives app s = false := by simp [survives, resolved, hr]
        have hih := ih _ _ _ _ h
        simp [List.filter_cons, hs, hih.1, hih.2]
      | some trip =>
        obtain ⟨mf, tp, f2⟩ := trip
        dsimp only at h
        have hres : resolved app s = some (mf, tp) := by simp [resolved, hr]
        by_cases ht : app.fs.isFile (joinPath app.srcdir tp)
        · rw [if_pos ht] at h
          cases hl : generate_labels_rst app.fs lp s.labels with
          | error e => rw [hl] at h; exact absurd h (by simp)
          | ok ls =>
            rw [hl] at h
            have hih := ih _ _ _ _ h
            have hs : survives app s = true := by simp [survives, hres, ht]
            refine ⟨?_, ?_⟩
            · rw [hih.1]
              simp [List.filter_cons, hs, entryOf, hres, List.append_assoc]
            · rw [hih.2]
              simp only [List.filter_cons, hs, if_pos, List.map_cons, strConcat, List.foldr_cons]
              rw [cardOf, hres]
              simp [hl, String.append_assoc, strConcat, Except.toOption]
        · rw [if_neg ht] at h
          have hs : survives app s = false := by simp [survives, hres, ht]
          have hih := ih _ _ _ _ h
          simp [List.filter_cons, hs, hih.1, hih.2]

/-! ## Concrete fixtures (catalog and filesystem snapshots used by the
witnesses and counterexamples) -/

/-- A filesystem snapshot with a single-notebook project `single` (with
thumbnail), a two-notebook project `multi` with no `index.ipynb` (its
label icon `ghost.svg` is absent), and an artifact-less project `empty`. -/
def fsW : FS :=
  { filesIn := fun d =>
      if d = "doc/gallery/multi" then ["doc/gallery/multi/a.ipynb", "doc/gallery/multi/b.ipynb"]
      else if d = "doc/gallery/single" then ["doc/gallery/single/boids.ipynb"]
      else if d = "doc/gallery/empty" then []
      else if d = "multi" then ["multi/a.ipynb", "multi/b.ipynb"]
      else if d = "single" then ["single/boids.ipynb"]
      else []
    isFile := fun p => p = "doc/gallery/single/thumbnails/boids.png"
    pathExists := fun p => p = "doc/_static/labels/ml.svg"
    readFile := fun _ => "INTRO" }

/-- Catalog entry for the single-notebook project. -/
def secSingle : Sec := { path := "single", title := "Single", description := "A one-notebook project", labels := ["ml"] }

/-- Catalog entry for the multi-notebook project without `index.ipynb`;
its `ghost` label has no icon file. -/
def secMulti : Sec := { path := "multi", title := "Multi", description := "Two notebooks, no index", labels := ["ghost"] }

/-- Catalog entry for the project with no displayable artifacts. -/
def secEmpty : Sec := { path := "empty", title := "Empty", description := "No notebooks at all", labels := [] }

/-- The gallery configuration used by the fixtures. -/
def confW : GalleryConf :=
  { default_extensions := ["*.ipynb"], examples_dir := "..", labels_dir := "labels",
    github_project := some "examples", intro := "long desc", title := "Gallery",
    path := "gallery", sections := [secSingle, secMulti] }

/-- The Sphinx application fixture. -/
def appW : App :=
  { srcdir := "doc", fs := fsW, conf := confW, hasStaticPath := true,
    tagMapping := fun p => if p = "single" then ["Featured"] else [],
    skips := fun _ => [], setIter := fun l => l }

/-- The labels directory of the fixture. -/
def labelsW : String := "doc/_static/labels"

/-! ## C10 -/

/-- Claim C10: if the configured gallery configuration equals the built-in
default configuration, `generate_gallery_rst` returns immediately and no
category page or root index document is written. -/
theorem claim_C10 (app : App) (h : app.conf = DEFAULT_GALLERY_CONF) :
    generate_gallery_rst app = ([], none) := by
  simp [generate_gallery_rst, h]

/-- An application whose configured `gallery_conf` is the built-in default. -/
def appD : App :=
  { srcdir := "doc", fs := fsW, conf := DEFAULT_GALLERY_CONF, hasStaticPath := true,
    tagMapping := fun _ => [], skips := fun _ => [], setIter := fun l => l }

/-- Witness for C10 at a concrete default-configured application. -/
theorem claim_C10_witness :
    appD.conf = DEFAULT_GALLERY_CONF ∧ generate_gallery_rst appD = ([], none) :=
  ⟨rfl, claim_C10 appD rfl⟩

/-! ## C7 -/

/-- Claim C7 (divergence): a project whose directory yields zero document
artifacts makes `generate_card_grid` raise a bare `IndexError`
(`files[0]` on an empty list) that names no project, and processing does
not continue past the offending project (`single`, which follows, is
never rendered). -/
theorem claim_C7 :
    generate_card_grid appW "" [secEmpty, secSingle] labelsW = .error .indexError := by rfl

/-! ## C2 -/

/-- Filesystem for the determinism counterexample: one project with a
single notebook and no thumbnail. -/
def fsS : FS :=
  { filesIn := fun d => if d = "doc/gallery/proj" then ["doc/gallery/proj/a.ipynb"] else []
    isFile := fun _ => false
    pathExists := fun _ => false
    readFile := fun _ => "INTRO" }

/-- Catalog entry with two labels, `a` and `b`. -/
def secL : Sec := { path := "proj", title := "P", description := "d", labels := ["a", "b"] }

/-- The category buckets produced from that catalog. -/
def cpsS : List (String × List Sec) := [("⭐ Featured", [secL])]

/-- Run of the pipeline whose `set` iteration happens to enumerate the
label set in insertion order. -/
def appS1 : App :=
  { srcdir := "doc", fs := fsS,
    conf := { confW with sections := [secL] }, hasStaticPath := true,
    tagMapping := fun _ => ["Featured"], skips := fun _ => [],
    setIter := fun l => l }

/-- A second run on the same catalog and filesystem whose `set` iteration
enumerates the same label set in the opposite order. -/
def appS2 : App :=
  { srcdir := "doc", fs := fsS,
    conf := { confW with sections := [secL] }, hasStaticPath := true,
    tagMapping := fun _ => ["Featured"], skips := fun _ => [],
    setIter := fun l => l.reverse }

deriving instance DecidableEq for Except

set_option maxRecDepth 40000 in
/-- Claim C2 (divergence): two runs on an identical catalog and filesystem
snapshot (the two applications agree on every input except the iteration
order of the `all_labels` set, which enumerates the same set of labels in
both runs) produce different bytes in the root index document, because
`generate_label_buttons` emits the filter buttons in set-iteration order. -/
theorem claim_C2 :
    appS1.srcdir = appS2.srcdir ∧ appS1.fs = appS2.fs ∧ appS1.conf = appS2.conf ∧
    (appS1.setIter (all_labels_sequence cpsS)).Perm (appS2.setIter (all_labels_sequence cpsS)) ∧
    generate_label_buttons ["a", "b"] ≠ generate_label_buttons ["b", "a"] ∧
    generate_gallery_index appS1 cpsS labelsW ≠ generate_gallery_index appS2 cpsS labelsW := by
  refine ⟨rfl, rfl, rfl, by decide, by decide, by decide⟩

/-! ## C8 -/

/-- Claim C8: when a project's glob yields exactly one notebook, that
notebook is the main artifact whatever its stem is: the card links to it,
the thumbnail path is derived from its stem, and the toctree entry points
at it. -/
theorem claim_C8 (app : App) (s : Sec) (f rst lp ls : String)
    (h1 : project_files app s = [f])
    (h2 : app.fs.isFile (joinPath app.srcdir
      (joinPath (joinPath (joinPath app.conf.path s.path) "thumbnails") (stem f ++ ".png"))) = true)
    (h3 : generate_labels_rst app.fs lp s.labels = .ok ls) :
    generate_card_grid app rst [s] lp =
      .ok (rst ++ grid_header ++
            inline_thumbnail_card s.title (joinPath s.path (stem f))
              (clean_description s.description)
              (joinPath (joinPath (joinPath app.conf.path s.path) "thumbnails") (stem f ++ ".png"))
              ls,
           [s.title ++ " <" ++ joinPath s.path (stem f) ++ ">"]) := by
  have hres : resolve_main app.conf.path s.path (project_files app s) =
      .ok (some (stem f,
        joinPath (joinPath (joinPath app.conf.path s.path) "thumbnails") (stem f ++ ".png"),
        [f])) := by
    rw [h1]; simp [resolve_main]
  simp only [generate_card_grid, card_grid_loop, hres]
  rw [if_pos h2, h3]
  simp [card_grid_loop, String.append_assoc]

/-- Witness for C8: the concrete `single` project, whose sole notebook has
stem `boids` (not a reserved name). -/
theorem claim_C8_witness :
    project_files appW secSingle = ["doc/gallery/single/boids.ipynb"] ∧
    appW.fs.isFile (joinPath appW.srcdir
      (joinPath (joinPath (joinPath appW.conf.path secSingle.path) "thumbnails")
        (stem "doc/gallery/single/boids.ipynb" ++ ".png"))) = true ∧
    generate_labels_rst appW.fs labelsW secSingle.labels =
      .ok "        .. image:: /doc/_static/labels/ml.svg\n" ∧
    generate_card_grid appW "" [secSingle] labelsW =
      .ok ("" ++ grid_header ++
            inline_thumbnail_card secSingle.title
              (joinPath secSingle.path (stem "doc/gallery/single/boids.ipynb"))
              (clean_description secSingle.description)
              (joinPath (joinPath (joinPath appW.conf.path secSingle.path) "thumbnails")
                (stem "doc/gallery/single/boids.ipynb" ++ ".png"))
              "        .. image:: /doc/_static/labels/ml.svg\n",
           [secSingle.title ++ " <" ++ joinPath secSingle.path
              (stem "doc/gallery/single/boids.ipynb") ++ ">"]) :=
  ⟨rfl, rfl, rfl,
    claim_C8 appW secSingle "doc/gallery/single/boids.ipynb" "" labelsW
      "        .. image:: /doc/_static/labels/ml.svg\n" rfl rfl rfl⟩

/-! ## C9 -/

/-- Claim C9: a project skipped before label validation — more than one
notebook with no `index.ipynb`, or a resolved main artifact whose
thumbnail file does not exist — contributes nothing to the card grid and
its labels are never checked: the run's outcome is the same as if the
project were absent, for every filesystem (in particular when the
project's label icons are missing). -/
theorem claim_C9 (app : App) (s : Sec) (rest : List Sec) (rst lp : String)
    (h : (1 < (project_files app s).length ∧
            "index.ipynb" ∉ (project_files app s).map basename) ∨
         (∃ mf tp f2,
            resolve_main app.conf.path s.path (project_files app s) = .ok (some (mf, tp, f2)) ∧
            app.fs.isFile (joinPath app.srcdir tp) = false)) :
    generate_card_grid app rst (s :: rest) lp = generate_card_grid app rst rest lp := by
  rcases h with ⟨hlen, hidx⟩ | ⟨mf, tp, f2, hres, hthumb⟩
  · have hres : resolve_main app.conf.path s.path (project_files app s) = .ok none := by
      simp only [resolve_main, if_pos hlen]
      rw [if_neg]
      simpa using hidx
    simp only [generate_card_grid, card_grid_loop, hres]
  · simp only [generate_card_grid, card_grid_loop, hres, hthumb]
    simp

/-- Witness for C9: the `multi` project (two notebooks, no `index.ipynb`)
whose only label `ghost` has no icon file, yet the run does not abort and
simply omits the project. -/
theorem claim_C9_witness :
    (1 < (project_files appW secMulti).length ∧
      "index.ipynb" ∉ (project_files appW secMulti).map basename) ∧
    appW.fs.pathExists (joinPath labelsW ("ghost" ++ ".svg")) = false ∧
    generate_card_grid appW "" [secMulti, secSingle] labelsW =
      generate_card_grid appW "" [secSingle] labelsW :=
  ⟨⟨by decide, by decide⟩, rfl,
    claim_C9 appW secMulti [secSingle] "" labelsW (Or.inl ⟨by decide, by decide⟩)⟩

/-! ## C1 -/

/-- Claim C1 (counterexample): on a snapshot whose project `multi` has two
notebooks and no `index.ipynb`, the card/grid stage does warn and exclude
the project (the grid text receives no card and the toctree no entry, and
that stage succeeds) — but the redirect-generation stage of the same
build aborts fatally: `to_gallery_redirects` raises `TypeError` on its
first project, because `doc/conf.py` passes a `root` keyword that
`dodo.py`'s `find_notebooks` does not accept.  The build as a whole does
not continue and complete: the condition is not recoverable at build
level. -/
theorem claim_C1_cex :
    generate_card_grid appW "" [secMulti] labelsW = .ok ("" ++ grid_header, []) ∧
    to_gallery_redirects appW.fs appW.skips ["multi"] =
      .error (.typeError "find_notebooks() got an unexpected keyword argument \x27root\x27") := by
  exact ⟨rfl, rfl⟩

/-- Claim C1 (amended): for a project with two or more document artifacts
and no reserved `index` stem, the card/grid stage emits a warning and
excludes the project from card rendering and from the toctree, and that
stage continues past it; however the build as a whole does not continue
and complete: in the frozen source the redirect-generation stage raises a
fatal `TypeError` as soon as it processes any project (the unsupported
`root` keyword passed to `find_notebooks`), so a build containing such a
project never finishes. -/
theorem claim_C1 (app : App) (s : Sec) (rest : List Sec) (ps : List String)
    (acc : List (String × String)) (rst lp : String)
    (h1 : 1 < (project_files app s).length)
    (h2 : "index.ipynb" ∉ (project_files app s).map basename) :
    generate_card_grid app rst (s :: rest) lp = generate_card_grid app rst rest lp ∧
    to_gallery_redirects_loop app.fs app.skips (s.path :: ps) acc =
      .error (.typeError "find_notebooks() got an unexpected keyword argument \x27root\x27") := by
  constructor
  · have hres : resolve_main app.conf.path s.path (project_files app s) = .ok none := by
      simp only [resolve_main, if_pos h1]
      rw [if_neg]
      simpa using h2
    simp only [generate_card_grid, card_grid_loop, hres]
  · rfl

/-- Witness for C1 at the concrete `multi` project. -/
theorem claim_C1_witness :
    1 < (project_files appW secMulti).length ∧
    "index.ipynb" ∉ (project_files appW secMulti).map basename ∧
    (generate_card_grid appW "" [secMulti] labelsW = generate_card_grid appW "" [] labelsW ∧
     to_gallery_redirects_loop appW.fs appW.skips [secMulti.path] [] =
       .error (.typeError "find_notebooks() got an unexpected keyword argument \x27root\x27")) :=
  ⟨by decide, by decide,
    claim_C1 appW secMulti [] [] [] "" labelsW (by decide) (by decide)⟩

/-! ## Python dict semantics of the redirect tables -/

/-- Lookup of the key at the head of an association list. -/
theorem dictGet_cons_self (p : String × String) (t : List (String × String)) :
    dictGet (p :: t) p.1 = some p.2 := by
  simp [dictGet, List.find?_cons]

/-- Lookup of a key different from the head. -/
theorem dictGet_cons_ne (p : String × String) (t : List (String × String)) (k : String)
    (h : ¬ p.1 = k) : dictGet (p :: t) k = dictGet t k := by
  simp [dictGet, List.find?_cons, h]

/-- Looking up an absent key yields `none`. -/
theorem dictGet_eq_none {d : List (String × String)} {k : String}
    (h : k ∉ d.map Prod.fst) : dictGet d k = none := by
  have hfind : List.find? (fun p => decide (p.1 = k)) d = none := by
    rw [List.find?_eq_none]
    intro p hp
    simp only [decide_eq_true_eq]
    intro hpk
    exact h (List.mem_map.mpr ⟨p, hp, hpk⟩)
  simp [dictGet, hfind]

/-- In-place value update leaves every other key's lookup unchanged. -/
theorem dictGet_map_upd {t : List (String × String)} {k v k' : String} (h : k' ≠ k) :
    dictGet (t.map (fun p => if p.1 = k then (p.1, v) else p)) k' = dictGet t k' := by
  unfold dictGet
  rw [List.find?_map]
  have hcomp : ((fun p : String × String => decide (p.1 = k')) ∘
      (fun p : String × String => if p.1 = k then (p.1, v) else p)) =
      (fun p : String × String => decide (p.1 = k')) := by
    funext p
    by_cases hpk : p.1 = k <;> simp [hpk]
  rw [hcomp]
  cases hfd : List.find? (fun p : String × String => decide (p.1 = k')) t with
  | none => simp
  | some p0 =>
    have hp0 : p0.1 = k' := by simpa using List.find?_some hfd
    have hupd : (if p0.1 = k then (p0.1, v) else p0) = p0 := by
      rw [if_neg]
      rw [hp0]
      exact h
    simp [hupd]

/-- In-place value update of an existing key makes its lookup return the
new value. -/
theorem dictGet_map_upd_self {t : List (String × String)} {k v : String}
    (h : t.any (fun p => p.1 = k) = true) :
    dictGet (t.map (fun p => if p.1 = k then (p.1, v) else p)) k = some v := by
  unfold dictGet
  rw [List.find?_map]
  have hcomp : ((fun p : String × String => decide (p.1 = k)) ∘
      (fun p : String × String => if p.1 = k then (p.1, v) else p)) =
      (fun p : String × String => decide (p.1 = k)) := by
    funext p
    by_cases hpk : p.1 = k <;> simp [hpk]
  rw [hcomp]
  have hsome : (List.find? (fun p : String × String => decide (p.1 = k)) t).isSome = true := by
    rw [List.find?_isSome]
    rcases List.any_eq_true.mp h with ⟨p, hp, hpk⟩
    exact ⟨p, hp, hpk⟩
  cases hfd : List.find? (fun p : String × String => decide (p.1 = k)) t with
  | none => rw [hfd] at hsome; simp at hsome
  | some p0 =>
    have hp0 : p0.1 = k := by simpa using List.find?_some hfd
    simp [hp0]

/-- The lookup law of `dictInsert`: the inserted key maps to the new
value, every other key is untouched. -/
theorem dictGet_dictInsert (d : List (String × String)) (k v k' : String) :
    dictGet (dictInsert d k v) k' = if k' = k then some v else dictGet d k' := by
  unfold dictInsert
  by_cases hany : d.any (fun p => p.1 = k) = true
  · rw [if_pos hany]
    by_cases hk : k' = k
    · subst hk
      rw [if_pos rfl]
      exact dictGet_map_upd_self hany
    · rw [if_neg hk]
      exact dictGet_map_upd hk
  · rw [if_neg hany]
    have hmem : k ∉ d.map Prod.fst := by
      intro hmem
      rcases List.mem_map.mp hmem with ⟨p, hp, hpk⟩
      exact hany (List.any_eq_true.mpr ⟨p, hp, by simpa using hpk⟩)
    have hnone : dictGet d k = none := dictGet_eq_none hmem
    by_cases hk : k' = k
    · subst hk
      rw [if_pos rfl]
      simp only [dictGet, List.find?_append]
      have : List.find? (fun p : String × String => decide (p.1 = k')) d = none := by
        have := hnone
        simp only [dictGet] at this
        cases hfd : List.find? (fun p : String × String => decide (p.1 = k')) d with
        | none => rfl
        | some p0 => rw [hfd] at this; simp at this
      simp [this, List.find?_cons]
    · rw [if_neg hk]
      simp only [dictGet, List.find?_append]
      have hkk : ¬ k = k' := fun hh => hk hh.symm
      have htail : List.find? (fun p : String × String => decide (p.1 = k')) [(k, v)] = none := by
        simp [List.find?_cons, hkk]
      rw [htail, Option.or_none]

/-- `dictInsert` preserves key uniqueness. -/
theorem nodup_keys_dictInsert (d : List (String × String)) (k v : String)
    (h : (d.map Prod.fst).Nodup) : ((dictInsert d k v).map Prod.fst).Nodup := by
  unfold dictInsert
  by_cases hany : d.any (fun p => p.1 = k) = true
  · rw [if_pos hany, List.map_map]
    have hcomp : (Prod.fst ∘ fun p : String × String => if p.1 = k then (p.1, v) else p) =
        Prod.fst := by
      funext p
      by_cases hpk : p.1 = k <;> simp [hpk]
    rw [hcomp]
    exact h
  · rw [if_neg hany, List.map_append]
    have hk : k ∉ d.map Prod.fst := by
      intro hmem
      rcases List.mem_map.mp hmem with ⟨p, hp, hpk⟩
      exact hany (List.any_eq_true.mpr ⟨p, hp, by simpa using hpk⟩)
    rw [List.nodup_append]
    refine ⟨h, List.nodup_singleton _, ?_⟩
    intro a ha hb
    simp only [List.map_cons, List.map_nil, List.mem_singleton] at hb
    subst hb
    exact hk ha

/-- `pyDictUpdate` preserves key uniqueness of the left dict. -/
theorem nodup_keys_pyDictUpdate (b a : List (String × String))
    (ha : (a.map Prod.fst).Nodup) : ((pyDictUpdate a b).map Prod.fst).Nodup := by
  induction b generalizing a with
  | nil => exact ha
  | cons p bt ih => exact ih (dictInsert a p.1 p.2) (nodup_keys_dictInsert a p.1 p.2 ha)

/-- Lookup law of `{**a, **b}` when `b` has unique keys: `b`'s entry wins
and silently overrides `a`'s. -/
theorem dictGet_pyDictUpdate (b a : List (String × String)) (k : String)
    (hb : (b.map Prod.fst).Nodup) :
    dictGet (pyDictUpdate a b) k = (dictGet b k).or (dictGet a k) := by
  induction b generalizing a with
  | nil => simp [pyDictUpdate, dictGet]
  | cons p bt ih =>
    simp only [List.map_cons, List.nodup_cons] at hb
    obtain ⟨hp, hbt⟩ := hb
    have hstep : pyDictUpdate a (p :: bt) = pyDictUpdate (dictInsert a p.1 p.2) bt := rfl
    rw [hstep, ih _ hbt, dictGet_dictInsert]
    by_cases hk : k = p.1
    · have hbtnone : dictGet bt k = none := by
        apply dictGet_eq_none
        intro hmem
        rw [hk] at hmem
        exact hp hmem
      rw [if_pos hk, hbtnone, Option.none_or]
      have hhead : dictGet (p :: bt) k = some p.2 := by
        rw [hk]
        exact dictGet_cons_self p bt
      rw [hhead]
      rfl
    · have hne : ¬ p.1 = k := fun hh => hk hh.symm
      rw [if_neg hk, dictGet_cons_ne p bt k hne]


/-! ## C3 -/

/-- Claim C3 (counterexample): for an ordinary one-project catalog in
which no duplicate source key exists anywhere, the frozen source
generates no redirect table at all: `to_gallery_redirects()` raises
`TypeError` on its first project (the unsupported `root` keyword), so the
`rediraffe_redirects` construction aborts before any dict merge.  The
abort is unconditional — not a duplicate-source-key configuration error —
and the flat mapping the claim describes is never produced for a
non-empty catalog. -/
theorem claim_C3_cex :
    to_gallery_redirects fsW (fun _ => []) ["single"] =
      .error (.typeError "find_notebooks() got an unexpected keyword argument \x27root\x27") ∧
    rediraffe_redirects fsW (fun _ => []) ["single"] =
      .error (.typeError "find_notebooks() got an unexpected keyword argument \x27root\x27") := by
  exact ⟨rfl, rfl⟩

set_option maxRecDepth 40000 in
/-- Claim C3 (amended): in the frozen source the redirect table is
generated only when the catalog's project list is empty; it is then the
merge of the two static tables, whose source keys are pairwise distinct,
so no source path maps to more than one target.  For every non-empty
project list the construction aborts before any per-project entry is
constructed or merged — not as a duplicate-key configuration error but
with an unconditional `TypeError` from the `find_notebooks` call, so no
duplicate source key is ever constructed, and no fatal-on-duplicate
behavior exists in the code. -/
theorem claim_C3 (fs : FS) (skips : String → List String) (p : String) (ps : List String) :
    rediraffe_redirects fs skips (p :: ps) =
      .error (.typeError "find_notebooks() got an unexpected keyword argument \x27root\x27") ∧
    rediraffe_redirects fs skips [] =
      .ok (pyDictUpdate top_level_redirects project_direct_links) ∧
    ((pyDictUpdate top_level_redirects project_direct_links).map Prod.fst).Nodup := by
  refine ⟨rfl, rfl, by decide⟩

/-! ## C6 -/

/-- A section whose categories are all in the vocabulary is filed without
an error. -/
theorem add_section_categories_ok (s : Sec) :
    ∀ (cs : List String) (m : List (String × List Sec)),
      (∀ c ∈ cs, (CAT_TO_CATNAME_MAP c).isSome) →
      ∃ m2, add_section_categories s cs m = .ok m2 := by
  intro cs
  induction cs with
  | nil => exact fun m _ => ⟨m, rfl⟩
  | cons c rest ih =>
    intro m hval
    have hc := hval c (List.mem_cons_self c rest)
    rcases Option.isSome_iff_exists.mp hc with ⟨catname, hcat⟩
    simp only [add_section_categories, hcat]
    exact ih _ (fun c' hc' => hval c' (List.mem_cons_of_mem c hc'))

/-- A section declaring some category outside the vocabulary makes the
validation loop raise `ValueError`, naming an offending category and the
project. -/
theorem add_section_categories_err (s : Sec) :
    ∀ (cs : List String) (m : List (String × List Sec)),
      (∃ c ∈ cs, CAT_TO_CATNAME_MAP c = none) →
      ∃ c, CAT_TO_CATNAME_MAP c = none ∧ c ∈ cs ∧
        add_section_categories s cs m = .error (.valueError
          ("Invalid category " ++ pyRepr c ++ " found in project " ++ pyRepr s.path ++ ".")) := by
  intro cs
  induction cs with
  | nil => intro m h; simp at h
  | cons c rest ih =>
    intro m h
    cases hcat : CAT_TO_CATNAME_MAP c with
    | none =>
      refine ⟨c, hcat, List.mem_cons_self c rest, ?_⟩
      simp only [add_section_categories, hcat]
    | some catname =>
      have hrest : ∃ c' ∈ rest, CAT_TO_CATNAME_MAP c' = none := by
        rcases h with ⟨c', hc', hnone⟩
        rcases List.mem_cons.mp hc' with hh | hh
        · exact absurd hnone (hh ▸ hcat ▸ by simp)
        · exact ⟨c', hh, hnone⟩
      rcases ih _ hrest with ⟨c', hnone, hmem, heq⟩
      refine ⟨c', hnone, List.mem_cons_of_mem c hmem, ?_⟩
      simp only [add_section_categories, hcat]
      exact heq

/-- If any section of the catalog declares an unknown category, the
validation pass fails with a descriptive `ValueError` and produces no
category buckets. -/
theorem build_category_projects_err (tag : String → List String) :
    ∀ (sections : List Sec) (m : List (String × List Sec)),
      (∃ s ∈ sections, ∃ c ∈ tag s.path, CAT_TO_CATNAME_MAP c = none) →
      ∃ s2 c2, CAT_TO_CATNAME_MAP c2 = none ∧
        build_category_projects tag sections m = .error (.valueError
          ("Invalid category " ++ pyRepr c2 ++ " found in project " ++ pyRepr s2 ++ ".")) := by
  intro sections
  induction sections with
  | nil => intro m h; simp at h
  | cons s rest ih =>
    intro m h
    by_cases hbad : ∃ c ∈ tag s.path, CAT_TO_CATNAME_MAP c = none
    · rcases add_section_categories_err s (tag s.path) m hbad with ⟨c, hnone, _, heq⟩
      refine ⟨s.path, c, hnone, ?_⟩
      simp only [build_category_projects, heq]
    · have hallok : ∀ c ∈ tag s.path, (CAT_TO_CATNAME_MAP c).isSome := by
        intro c hc
        cases hcat : CAT_TO_CATNAME_MAP c with
        | none => exact absurd ⟨c, hc, hcat⟩ hbad
        | some _ => simp
      rcases add_section_categories_ok s (tag s.path) m hallok with ⟨m2, heq⟩
      have hrest : ∃ s' ∈ rest, ∃ c ∈ tag s'.path, CAT_TO_CATNAME_MAP c = none := by
        rcases h with ⟨s', hs', hc'⟩
        rcases List.mem_cons.mp hs' with hh | hh
        · exact absurd (hh ▸ hc') hbad
        · exact ⟨s', hh, hc'⟩
      rcases ih m2 hrest with ⟨s2, c2, hnone, heq2⟩
      refine ⟨s2, c2, hnone, ?_⟩
      simp only [build_category_projects, heq]
      exact heq2

/-- Claim C6: a project declaring a category outside the static vocabulary
makes `generate_galleries` abort with a descriptive `ValueError` (naming
a category and its project) before any output document is written: the
set of performed writes is empty. -/
theorem claim_C6 (app : App) (s : Sec) (c : String)
    (hs : s ∈ app.conf.sections) (hc : c ∈ app.tagMapping s.path)
    (hv : CAT_TO_CATNAME_MAP c = none) (hst : app.hasStaticPath = true) :
    (generate_galleries app).1 = [] ∧
    ∃ p2 c2, CAT_TO_CATNAME_MAP c2 = none ∧
      (generate_galleries app).2 = some (.valueError
        ("Invalid category " ++ pyRepr c2 ++ " found in project " ++ pyRepr p2 ++ ".")) := by
  rcases build_category_projects_err app.tagMapping app.conf.sections []
      ⟨s, hs, c, hc, hv⟩ with ⟨p2, c2, hnone, heq⟩
  have hlp : get_labels_path app =
      .ok (joinPath (joinPath app.srcdir "_static") app.conf.labels_dir) := by
    simp [get_labels_path, hst]
  refine ⟨?_, p2, c2, hnone, ?_⟩ <;>
    simp only [generate_galleries, hlp, heq]

/-- An application whose project `single` declares the unknown category
`Unknown Category`. -/
def app6 : App :=
  { srcdir := "doc", fs := fsW, conf := confW, hasStaticPath := true,
    tagMapping := fun p => if p = "single" then ["Unknown Category"] else [],
    skips := fun _ => [], setIter := fun l => l }

/-- Witness for C6 at the concrete unknown category. -/
theorem claim_C6_witness :
    secSingle ∈ app6.conf.sections ∧
    "Unknown Category" ∈ app6.tagMapping secSingle.path ∧
    CAT_TO_CATNAME_MAP "Unknown Category" = none ∧
    ((generate_galleries app6).1 = [] ∧
     ∃ p2 c2, CAT_TO_CATNAME_MAP c2 = none ∧
       (generate_galleries app6).2 = some (.valueError
         ("Invalid category " ++ pyRepr c2 ++ " found in project " ++ pyRepr p2 ++ "."))) :=
  ⟨by decide, by decide, by decide,
    claim_C6 app6 secSingle "Unknown Category" (by decide) (by decide) (by decide) rfl⟩

/-! ## C4 -/

set_option maxRecDepth 40000 in
/-- Claim C4 (counterexample): the root index document violates the
card/toctree round-trip invariant.  With one surviving project `Single`
under the Featured category, the index page's card grid receives a card
for `Single` (its `generate_card_grid` run emits the entry
`Single <single/boids>`, which the index generator discards), while the
document's toctree lists only the category link `⭐ Featured <featured>`:
the project appears in the card grid but not in the toctree. -/
theorem claim_C4_cex :
    (gallery_index_loop appW labelsW [("⭐ Featured", [secSingle])]
        (CATNAME_TO_CAT_MAP.map (fun p => p.1)) "" []).toOption.map Prod.snd =
      some ["⭐ Featured <featured>"] ∧
    (generate_card_grid appW "" [secSingle] labelsW).toOption.map Prod.snd =
      some ["Single <single/boids>"] ∧
    ([secSingle].filter (fun s => survives appW s)).map (cardOf appW labelsW) =
      [cardOf appW labelsW secSingle] ∧
    entryOf appW secSingle = "Single <single/boids>" ∧
    "Single <single/boids>" ∉ ["⭐ Featured <featured>"] := by
  refine ⟨by rfl, by rfl, by rfl, by rfl, by decide⟩

/-- Claim C4 (amended): on every *category* page the invariant holds: any
successful `generate_card_grid` run emits its cards and its toctree
entries for exactly the same projects — the surviving projects in catalog
order — so card membership and navigation membership coincide in content
and order.  (On the root index page the toctree lists categories, not
projects, see the counterexample.) -/
theorem claim_C4 (app : App) (rst lp : String) (projects : List Sec)
    (out : String) (es : List String)
    (h : generate_card_grid app rst projects lp = .ok (out, es)) :
    es = (projects.filter (fun s => survives app s)).map (entryOf app) ∧
    out = rst ++ grid_header ++
      strConcat ((projects.filter (fun s => survives app s)).map (cardOf app lp)) := by
  have hmain := card_grid_loop_ok app lp projects (rst ++ grid_header) [] out es h
  exact ⟨by simpa using hmain.1, hmain.2⟩

/-- Witness for C4: the concrete catalog `[Single, Multi]`, in which only
`Single` survives. -/
theorem claim_C4_witness :
    generate_card_grid appW "" [secSingle, secMulti] labelsW =
      .ok ((generate_card_grid appW "" [secSingle, secMulti] labelsW).toOption.getD ("", [])) ∧
    ((generate_card_grid appW "" [secSingle, secMulti] labelsW).toOption.getD ("", [])).2 =
      ([secSingle, secMulti].filter (fun s => survives appW s)).map (entryOf appW) ∧
    ((generate_card_grid appW "" [secSingle, secMulti] labelsW).toOption.getD ("", [])).1 =
      "" ++ grid_header ++ strConcat
        (([secSingle, secMulti].filter (fun s => survives appW s)).map (cardOf appW labelsW)) :=
  ⟨rfl,
    (claim_C4 appW "" labelsW [secSingle, secMulti] _ _ rfl).1,
    (claim_C4 appW "" labelsW [secSingle, secMulti] _ _ rfl).2⟩

/-! ## C5: ordering produced by `sort_index_first` -/

/-- After a slash, `afterLastSlash` forgets everything before it. -/
theorem afterLastSlash_append_slash :
    ∀ (xs : List Char) (acc ys : List Char),
      afterLastSlash acc (xs ++ '/' :: ys) = afterLastSlash [] ys := by
  intro xs
  induction xs with
  | nil => intro acc ys; simp [afterLastSlash]
  | cons c rest ih =>
    intro acc ys
    simp only [List.cons_append, afterLastSlash]
    by_cases hc : c = '/' <;> simp [hc, ih]

/-- On a slash-free list, `afterLastSlash` appends the whole list. -/
theorem afterLastSlash_no_slash :
    ∀ (l : List Char) (acc : List Char), '/' ∉ l → afterLastSlash acc l = acc ++ l := by
  intro l
  induction l with
  | nil => intro acc _; simp [afterLastSlash]
  | cons c rest ih =>
    intro acc h
    have hc : ¬ c = '/' := fun hh => h (hh ▸ List.mem_cons_self c rest)
    have hrest : '/' ∉ rest := fun hh => h (List.mem_cons_of_mem c hh)
    simp only [afterLastSlash, if_neg (fun hh => hc hh)]
    rw [ih _ hrest]
    simp

/-- The character data of `joinPath dir n`. -/
theorem joinPath_data (dir n : String) :
    (joinPath dir n).data = (dir.data ++ ['/']) ++ n.data := by
  simp [joinPath, String.data_append]

/-- The basename of `dir/<n>` is `n` whenever `n` contains no slash. -/
theorem basename_joinPath (dir n : String) (h : '/' ∉ n.data) :
    basename (joinPath dir n) = n := by
  unfold basename
  rw [joinPath_data]
  rw [List.append_assoc, List.singleton_append, afterLastSlash_append_slash,
    afterLastSlash_no_slash _ _ h, List.nil_append]

/-- Any element of a list splits it at its last occurrence. -/
theorem exists_last_occurrence {x : String} :
    ∀ {l : List String}, x ∈ l → ∃ pre post, l = pre ++ x :: post ∧ x ∉ post := by
  intro l
  induction l with
  | nil => intro h; simp at h
  | cons a t ih =>
    intro h
    by_cases hxt : x ∈ t
    · rcases ih hxt with ⟨pre, post, hdec, hnot⟩
      exact ⟨a :: pre, post, by rw [hdec]; rfl, hnot⟩
    · have hxa : x = a := by
        rcases List.mem_cons.mp h with hh | hh
        · exact hh
        · exact absurd hh hxt
      exact ⟨[], t, by rw [hxa]; simp, hxt⟩

/-- `find_index_idx` yields `none` iff no basename matches. -/
theorem find_index_idx_eq_none :
    ∀ (w : List String), (∀ y ∈ w, basename y ≠ "index.ipynb") → find_index_idx w = none := by
  intro w
  induction w with
  | nil => intro _; rfl
  | cons f rest ih =>
    intro h
    have hrest := ih (fun y hy => h y (List.mem_cons_of_mem f hy))
    have hf : ¬ basename f = "index.ipynb" := h f (List.mem_cons_self f rest)
    simp [find_index_idx, hrest, hf]

/-- `find_index_idx` finds the position of the last `index.ipynb`. -/
theorem find_index_idx_append :
    ∀ (u : List String) (v : String) (w : List String),
      basename v = "index.ipynb" → (∀ y ∈ w, basename y ≠ "index.ipynb") →
      find_index_idx (u ++ v :: w) = some u.length := by
  intro u
  induction u with
  | nil =>
    intro v w hv hw
    simp [find_index_idx, find_index_idx_eq_none w hw, hv]
  | cons u0 u' ih =>
    intro v w hv hw
    simp only [List.cons_append, find_index_idx, List.append_eq, ih v w hv hw, List.length_cons]

/-- Indexing at the split point of an append. -/
theorem getD_append_cons {α : Type} :
    ∀ (u : List α) (v : α) (w : List α) (d : α), (u ++ v :: w).getD u.length d = v := by
  intro u
  induction u with
  | nil => intro v w d; simp
  | cons a u' ih => intro v w d; simpa using ih v w d

/-- Erasing at the split point of an append. -/
theorem eraseIdx_append_cons {α : Type} :
    ∀ (u : List α) (v : α) (w : List α), (u ++ v :: w).eraseIdx u.length = u ++ w := by
  intro u
  induction u with
  | nil => intro v w; simp
  | cons a u' ih => intro v w; simpa using ih v w

/-- Prefix cancellation for the lexicographic order on character lists. -/
theorem append_lt_append_iff :
    ∀ (p a b : List Char), p ++ a < p ++ b ↔ a < b := by
  intro p
  induction p with
  | nil => intro a b; rfl
  | cons c p' ih =>
    intro a b
    simp only [List.cons_append]
    exact Iff.trans List.Lex.cons_iff (ih a b)

/-- Prefix cancellation for `≤` on character lists. -/
theorem append_le_append_iff (p a b : List Char) : p ++ a ≤ p ++ b ↔ a ≤ b := by
  rw [← not_lt, ← not_lt, append_lt_append_iff]

/-- Claim C5: for a project directory `dir` whose (distinct, slash-free)
notebook filenames include `index.ipynb`, the ordered artifact list
computed by `sort_index_first` puts the index artifact first, followed by
all remaining artifacts in ascending lexicographic order of their
filenames. -/
theorem claim_C5 (dir : String) (names : List String)
    (hnd : names.Nodup)
    (hsl : ∀ n ∈ names, ('/' : Char) ∉ n.data)
    (hidx : "index.ipynb" ∈ names)
    (htwo : 2 ≤ names.length) :
    ∃ tail,
      sort_index_first (names.map (fun n => joinPath dir n)) =
        some (joinPath dir "index.ipynb" :: tail) ∧
      tail.Perm ((names.erase "index.ipynb").map (fun n => joinPath dir n)) ∧
      List.Pairwise (fun a b => (basename a).data ≤ (basename b).data) tail := by
  obtain ⟨pre, post, hdec, hpost⟩ := exists_last_occurrence hidx
  have hxpre : "index.ipynb" ∉ pre := by
    have h2 := hnd
    rw [hdec] at h2
    rcases List.nodup_append.mp h2 with ⟨_, _, hdisj⟩
    exact fun hx => hdisj hx (List.mem_cons_self _ _)
  have hmem_names : ∀ n, n ∈ pre ++ post → n ∈ names := by
    intro n hn
    rw [hdec]
    rcases List.mem_append.mp hn with h | h
    · exact List.mem_append_left _ h
    · exact List.mem_append_right _ (List.mem_cons_of_mem _ h)
  have hmap : names.map (fun n => joinPath dir n) =
      pre.map (fun n => joinPath dir n) ++
        joinPath dir "index.ipynb" :: post.map (fun n => joinPath dir n) := by
    rw [hdec, List.map_append, List.map_cons]
  have hbx : basename (joinPath dir "index.ipynb") = "index.ipynb" :=
    basename_joinPath dir _ (hsl _ hidx)
  have hbw : ∀ y ∈ post.map (fun n => joinPath dir n), basename y ≠ "index.ipynb" := by
    intro y hy
    rcases List.mem_map.mp hy with ⟨n, hn, rfl⟩
    have hnames : n ∈ names := hmem_names n (List.mem_append_right _ hn)
    rw [basename_joinPath dir n (hsl n hnames)]
    intro heq
    exact hpost (heq ▸ hn)
  have hfind : find_index_idx (names.map (fun n => joinPath dir n)) =
      some (pre.map (fun n => joinPath dir n)).length := by
    rw [hmap]
    exact find_index_idx_append _ _ _ hbx hbw
  have hgetD : (names.map (fun n => joinPath dir n)).getD
      (pre.map (fun n => joinPath dir n)).length "" = joinPath dir "index.ipynb" := by
    rw [hmap]
    exact getD_append_cons _ _ _ _
  have herase : (names.map (fun n => joinPath dir n)).eraseIdx
      (pre.map (fun n => joinPath dir n)).length =
      pre.map (fun n => joinPath dir n) ++ post.map (fun n => joinPath dir n) := by
    rw [hmap]
    exact eraseIdx_append_cons _ _ _
  refine ⟨pySorted (pre.map (fun n => joinPath dir n) ++ post.map (fun n => joinPath dir n)),
    ?_, ?_, ?_⟩
  · simp only [sort_index_first, hfind, hgetD, herase]
  · have hperm := List.perm_insertionSort pyLe
      (pre.map (fun n => joinPath dir n) ++ post.map (fun n => joinPath dir n))
    have her2 : names.erase "index.ipynb" = pre ++ post := by
      rw [hdec, List.erase_append_right _ hxpre, List.erase_cons_head]
    rw [her2, List.map_append]
    exact hperm
  · have hsorted : List.Pairwise pyLe (pySorted
        (pre.map (fun n => joinPath dir n) ++ post.map (fun n => joinPath dir n))) :=
      List.sorted_insertionSort pyLe _
    refine List.Pairwise.imp_of_mem ?_ hsorted
    intro a b ha hb hR
    have hmm : ∀ x, x ∈ pySorted
        (pre.map (fun n => joinPath dir n) ++ post.map (fun n => joinPath dir n)) →
        ∃ n, n ∈ names ∧ x = joinPath dir n := by
      intro x hx
      have hx2 : x ∈ pre.map (fun n => joinPath dir n) ++ post.map (fun n => joinPath dir n) :=
        (List.perm_insertionSort pyLe _).mem_iff.mp hx
      rw [← List.map_append] at hx2
      rcases List.mem_map.mp hx2 with ⟨n, hn, rfl⟩
      exact ⟨n, hmem_names n hn, rfl⟩
    rcases hmm a ha with ⟨n1, hn1, rfl⟩
    rcases hmm b hb with ⟨n2, hn2, rfl⟩
    rw [basename_joinPath dir n1 (hsl _ hn1), basename_joinPath dir n2 (hsl _ hn2)]
    have hR2 : (joinPath dir n1).data ≤ (joinPath dir n2).data := hR
    rw [joinPath_data, joinPath_data] at hR2
    exact (append_le_append_iff _ _ _).mp hR2

/-- Witness for C5: the `attractors`-style project with notebooks
`clifford.ipynb`, `index.ipynb`, `fractal.ipynb`. -/
theorem claim_C5_witness :
    (["clifford.ipynb", "index.ipynb", "fractal.ipynb"] : List String).Nodup ∧
    (∀ n ∈ (["clifford.ipynb", "index.ipynb", "fractal.ipynb"] : List String),
      ('/' : Char) ∉ n.data) ∧
    "index.ipynb" ∈ (["clifford.ipynb", "index.ipynb", "fractal.ipynb"] : List String) ∧
    2 ≤ (["clifford.ipynb", "index.ipynb", "fractal.ipynb"] : List String).length ∧
    (∃ tail,
      sort_index_first ((["clifford.ipynb", "index.ipynb", "fractal.ipynb"] : List String).map
          (fun n => joinPath "gallery/attractors" n)) =
        some (joinPath "gallery/attractors" "index.ipynb" :: tail) ∧
      tail.Perm (((["clifford.ipynb", "index.ipynb", "fractal.ipynb"] : List String).erase
          "index.ipynb").map (fun n => joinPath "gallery/attractors" n)) ∧
      List.Pairwise (fun a b => (basename a).data ≤ (basename b).data) tail) :=
  ⟨by decide, by decide, by decide, by decide,
    claim_C5 "gallery/attractors" ["clifford.ipynb", "index.ipynb", "fractal.ipynb"]
      (by decide) (by decide) (by decide) (by decide)⟩
